import Mathlib

/-
Shallow embedding of the expression evaluator.

The repository holds two drifted variants of the same shunting-yard
converter and postfix evaluator. The variant embedded here is the
canonical one (src/unnamed/part_000): it is the one with parenthesis
support, the division-by-zero guard, and the mismatched-parentheses
check, and it is the variant the claims cite. src/expression_evaluator.cpp
is the legacy duplicate without parentheses and without the division
guard; per the design notes its divergences are defects, not features.

Modelling conventions:
- C++ double values are modelled as exact rationals. Every literal and
  every arithmetic result exercised by the claims is exactly
  representable in double, where IEEE 754 +, -, *, / agree with the
  rational operations, so the model is exact on those inputs.
- std::stack of tokens is a List with the head as the top of the stack.
  The converter pushes its output onto a stack and calls reverse_stack
  at the end, so the evaluator reads tokens in push order; the output is
  modelled directly as a list in push (reading) order, which the design
  explicitly allows as an equivalent representation.
- Exceptions are modelled with Except over an error-kind type; each
  throw site of the source maps to one kind.
- The loop index i of infix_to_postfix has the unsigned type
  std::size_t. Its guard i - 1 < 0 therefore never holds, and at i = 0
  the lookback expression[i-1] reads the out-of-bounds index 2^64 - 1.
  The scanner below carries the previous character as an Option. It
  models the byte read at i = 0 as a non-digit, which is what every
  concrete run relies on; the size_t index arithmetic itself is
  modelled separately (lookback_index, lookback_guard) to settle the
  bounds claim.
-/

/-- Operator descriptor from expression_evaluator.hpp: priority and
left-associativity of an arithmetic operator. -/
structure OperatorProperty where
  priority : Int
  left_associative : Bool
deriving DecidableEq

/-- The Operator enum from expression_evaluator.hpp. -/
inductive Operator where
  | Addition
  | Subtraction
  | Multiplication
  | Division
  | Exponentiation
deriving DecidableEq

/-- One kind per throw site of the embedded variant. UnknownOperator is
the std::out_of_range escaping from operator_properties.at on a symbol
missing from the table; NumberOutOfRange is the std::out_of_range of
std::stod, unreachable in the exact rational model. -/
inductive EvalError where
  | EmptyExpression
  | MismatchedParentheses
  | InvalidOperator
  | UnknownOperator
  | InvalidNumber
  | NumberOutOfRange
  | InsufficientOperands
  | DivisionByZero
  | MalformedExpression
deriving DecidableEq

instance {ε α : Type} [DecidableEq ε] [DecidableEq α] : DecidableEq (Except ε α) := fun a b =>
  match a, b with
  | Except.error e1, Except.error e2 =>
    if h : e1 = e2 then isTrue (by rw [h]) else isFalse (by intro hc; cases hc; exact h rfl)
  | Except.error e1, Except.ok x => isFalse (by intro hc; cases hc)
  | Except.ok x, Except.error e1 => isFalse (by intro hc; cases hc)
  | Except.ok x, Except.ok y =>
    if h : x = y then isTrue (by rw [h]) else isFalse (by intro hc; cases hc; exact h rfl)

/-- The operator_properties table of expression_evaluator.hpp, as the
lookup function of the unordered_map; none models a missing key. -/
def operator_properties : String → Option OperatorProperty
  | "+" => some ⟨1, true⟩
  | "-" => some ⟨1, true⟩
  | "*" => some ⟨2, true⟩
  | "/" => some ⟨2, true⟩
  | "^" => some ⟨3, false⟩
  | _ => none

/-- has_lower_precedence of src/unnamed/part_000: false when either
argument is a parenthesis; on a priority tie, the left-associativity of
the first operator; otherwise the priority comparison. The .at lookup
throws when a symbol is not in the table. -/
def has_lower_precedence (op1_str op2_str : String) : Except EvalError Bool :=
  if op1_str = "(" || op2_str = "(" || op1_str = ")" || op2_str = ")" then
    Except.ok false
  else
    match operator_properties op1_str, operator_properties op2_str with
    | some op1, some op2 =>
        if op1.priority = op2.priority then Except.ok op1.left_associative
        else Except.ok (decide (op1.priority < op2.priority))
    | _, _ => Except.error EvalError.UnknownOperator

/-- C isdigit in the default locale: the characters 0-9. -/
def isdigit (c : Char) : Bool := decide ('0' ≤ c) && decide (c ≤ '9')

/-- The loop state of infix_to_postfix: the output token sequence in
push (reading) order, the operator stack with its top at the head, the
pending number literal, and the previous_num flag. -/
structure ConvState where
  output : List String
  Operators : List String
  current_num : String
  previous_num : Bool
deriving DecidableEq

/-- The closing-parenthesis loop of infix_to_postfix: pop operators to
the output until a left parenthesis appears, discard it; an emptied
stack means mismatched parentheses. -/
def pop_until_paren (output : List String) :
    List String → Except EvalError (List String × List String)
  | [] => Except.error EvalError.MismatchedParentheses
  | top :: rest =>
    if top = "(" then Except.ok (output, rest)
    else pop_until_paren (output ++ [top]) rest

/-- The binary-operator loop of infix_to_postfix: pop operators to the
output while the stack top is not a left parenthesis and the incoming
operator has lower precedence than it. -/
def pop_ops (op : String) (output : List String) :
    List String → Except EvalError (List String × List String)
  | [] => Except.ok (output, [])
  | top :: rest =>
    if top = "(" then Except.ok (output, top :: rest)
    else
      match has_lower_precedence op top with
      | Except.error e => Except.error e
      | Except.ok true => pop_ops op (output ++ [top]) rest
      | Except.ok false => Except.ok (output, top :: rest)

/-- The character scan of infix_to_postfix over expression[i] for
increasing i. prev is the character expression[i-1]; it is none at
i = 0, where the source reads out of bounds (see lookback_index) and
the model takes the read byte to be a non-digit. -/
def scan (prev : Option Char) (st : ConvState) :
    List Char → Except EvalError ConvState
  | [] => Except.ok st
  | c :: rest =>
    if isdigit c || c = '.' || c = ',' then
      scan (some c) { st with current_num := st.current_num.push (if c = ',' then '.' else c), previous_num := true } rest
    else if c = '(' then
      scan (some c) { st with Operators := "(" :: st.Operators } rest
    else if c = ')' then
      let st1 :=
        if st.current_num ≠ "" then
          { st with output := st.output ++ [st.current_num], current_num := "" }
        else st
      match pop_until_paren st1.output st1.Operators with
      | Except.error e => Except.error e
      | Except.ok (out2, ops2) =>
          scan (some c) { st1 with output := out2, Operators := ops2 } rest
    else if c ≠ ' ' then
      if (match prev with | none => true | some p => !isdigit p) then
        scan (some c) { st with current_num := st.current_num.push c } rest
      else
        let st1 :=
          if st.previous_num then
            { st with output := st.output ++ [st.current_num], current_num := "", previous_num := false }
          else st
        match pop_ops (String.mk [c]) st1.output st1.Operators with
        | Except.error e => Except.error e
        | Except.ok (out2, ops2) =>
            scan (some c) { st1 with output := out2, Operators := String.mk [c] :: ops2 } rest
    else
      scan (some c) st rest

/-- infix_to_postfix of src/unnamed/part_000: scan the expression, then
flush a pending literal and the remaining operator stack to the output.
The source reverses its output stack at the end; the model keeps the
output in push order throughout, so no reversal is needed. -/
def infix_to_postfix (expression : String) : Except EvalError (List String) :=
  match scan none ⟨[], [], "", false⟩ expression.data with
  | Except.error e => Except.error e
  | Except.ok st =>
    let out :=
      if st.current_num ≠ "" then st.output ++ [st.current_num] else st.output
    Except.ok (out ++ st.Operators)

/-- is_number of src/unnamed/part_000: the string contains at least one
character of 0123456789. (find_first_of). -/
def is_number (s : String) : Bool :=
  s.data.any (fun c => isdigit c || c = '.')

/-- operator_to_enum of src/unnamed/part_000. -/
def operator_to_enum (op : String) : Except EvalError Operator :=
  if op = "+" then Except.ok Operator.Addition
  else if op = "-" then Except.ok Operator.Subtraction
  else if op = "*" then Except.ok Operator.Multiplication
  else if op = "/" then Except.ok Operator.Division
  else if op = "^" then Except.ok Operator.Exponentiation
  else Except.error EvalError.InvalidOperator

/-- Decimal value of a digit character. -/
def digitVal (c : Char) : Nat := c.toNat - 48

/-- Value of a digit string read left to right. -/
def digitsVal (ds : List Char) : Nat :=
  ds.foldl (fun acc c => 10 * acc + digitVal c) 0

/-- Modelled std::stod, restricted to the token shapes this program
feeds it: an optional leading sign, then the longest prefix made of
decimal digits with at most one decimal point; the rest of the token is
ignored, and a prefix with no digit at all is invalid_argument,
surfaced as InvalidNumber. Exponent and hexadecimal forms of stod do
not arise on the inputs settled here. -/
def stod_scan (s : String) : Bool × List Char × List Char :=
  let signed : Bool × List Char :=
    match s.data with
    | '-' :: t => (true, t)
    | '+' :: t => (false, t)
    | _ => (false, s.data)
  let ip := signed.2.takeWhile isdigit
  let rest := signed.2.dropWhile isdigit
  let fp : List Char :=
    match rest with
    | '.' :: t => t.takeWhile isdigit
    | _ => []
  (signed.1, ip, fp)

/-- The value layer of the modelled std::stod on the scanned parts:
sign, integer digits, fraction digits. -/
def stod (s : String) : Except EvalError ℚ :=
  let parts := stod_scan s
  if parts.2.1.isEmpty && parts.2.2.isEmpty then Except.error EvalError.InvalidNumber
  else
    let mag : ℚ := (digitsVal parts.2.1 : ℚ) + (digitsVal parts.2.2 : ℚ) / (10 : ℚ) ^ parts.2.2.length
    Except.ok (if parts.1 then -mag else mag)

/-- Modelled std::pow on the rational value model: exact for integer
exponents, the only exponents the settled claims exercise; a fractional
exponent is outside the rational model and mapped to 0. -/
def pow_model (base expo : ℚ) : ℚ :=
  if expo.den = 1 then
    if 0 ≤ expo.num then base ^ expo.num.toNat
    else (base ^ (-expo.num).toNat)⁻¹
  else 0

/-- apply_operator of src/unnamed/part_000: num1 is the stack top (the
right operand), num2 the next value (the left operand); division by an
exact zero right operand throws. -/
def apply_operator (result : List ℚ) (op : Operator) : Except EvalError (List ℚ) :=
  match result with
  | num1 :: num2 :: rest =>
    match op with
    | Operator.Addition => Except.ok ((num2 + num1) :: rest)
    | Operator.Subtraction => Except.ok ((num2 - num1) :: rest)
    | Operator.Multiplication => Except.ok ((num2 * num1) :: rest)
    | Operator.Division =>
        if num1 = 0 then Except.error EvalError.DivisionByZero
        else Except.ok ((num2 / num1) :: rest)
    | Operator.Exponentiation => Except.ok (pow_model num2 num1 :: rest)
  | _ => Except.error EvalError.InsufficientOperands

/-- The token-consumption loop of evaluate: number tokens are parsed
and pushed, other tokens need two operands, are mapped through
operator_to_enum and applied; at the end exactly one value must remain. -/
def eval_postfix (tokens : List String) (result : List ℚ) : Except EvalError ℚ :=
  match tokens with
  | [] =>
    match result with
    | [r] => Except.ok r
    | _ => Except.error EvalError.MalformedExpression
  | token :: rest =>
    if is_number token then
      match stod token with
      | Except.error e => Except.error e
      | Except.ok v => eval_postfix rest (v :: result)
    else if result.length < 2 then
      Except.error EvalError.InsufficientOperands
    else
      match operator_to_enum token with
      | Except.error e => Except.error e
      | Except.ok op =>
        match apply_operator result op with
        | Except.error e => Except.error e
        | Except.ok result2 => eval_postfix rest result2

/-- evaluate of src/unnamed/part_000: reject the empty string, convert
to postfix, run the evaluator loop on an empty operand stack. -/
def evaluate (expression : String) : Except EvalError ℚ :=
  if expression = "" then Except.error EvalError.EmptyExpression
  else
    match infix_to_postfix expression with
    | Except.error e => Except.error e
    | Except.ok tokens => eval_postfix tokens []

/-- Width of std::size_t on the target platform. -/
def size_t_width : Nat := 2 ^ 64

/-- The index at which the unary-operator lookback of infix_to_postfix
reads the expression: the C++ subexpression i - 1 evaluated in
std::size_t arithmetic, wrapping to 2^64 - 1 at i = 0. -/
def lookback_index (i : Nat) : Nat := (i + (size_t_width - 1)) % size_t_width

/-- The guard i - 1 < 0 of the lookback: an unsigned value compared
with 0, hence never true. -/
def lookback_guard (i : Nat) : Bool := decide (lookback_index i < 0)

/-- stod on a token whose scan yields an integer digit part and no
fraction part: the value is the signed digit value. -/
theorem stod_int (s : String) (sg : Bool) (ip : List Char) (n : ℕ)
    (h1 : stod_scan s = (sg, ip, [])) (h2 : ip.isEmpty = false)
    (h3 : digitsVal ip = n) :
    stod s = Except.ok (if sg = true then -(n : ℚ) else (n : ℚ)) := by
  have h0 : digitsVal [] = 0 := rfl
  simp [stod, h1, h2, h3, h0]

/-- C1: multiplication has priority 2 and addition priority 1 in the
operator table, so the conversion of 2+3*4 applies the multiplication
before the addition and evaluate returns 14. -/
theorem claim_C1 : operator_properties "+" = some ⟨1, true⟩ ∧
    operator_properties "*" = some ⟨2, true⟩ ∧
    evaluate "2+3*4" = Except.ok 14 := by
  refine ⟨rfl, rfl, ?_⟩
  have hpost : infix_to_postfix "2+3*4" = Except.ok ["2", "3", "4", "*", "+"] := rfl
  have s2 : stod "2" = Except.ok 2 := by simpa using stod_int "2" false ['2'] 2 rfl rfl rfl
  have s3 : stod "3" = Except.ok 3 := by simpa using stod_int "3" false ['3'] 3 rfl rfl rfl
  have s4 : stod "4" = Except.ok 4 := by simpa using stod_int "4" false ['4'] 4 rfl rfl rfl
  have n2 : is_number "2" = true := rfl
  have n3 : is_number "3" = true := rfl
  have n4 : is_number "4" = true := rfl
  have nm : is_number "*" = false := rfl
  have np : is_number "+" = false := rfl
  simp [evaluate, hpost, eval_postfix, s2, s3, s4, n2, n3, n4, nm, np, operator_to_enum, apply_operator]
  norm_num

/-- C2: subtraction and division group left to right, the left operand
sitting below the right operand on the stack and being popped second, so
10-3-2 gives 5 and 8/4/2 gives 1; apply_operator subtracts the stack
top (the right operand) from the value below it (the left operand). -/
theorem claim_C2 : evaluate "10-3-2" = Except.ok 5 ∧
    evaluate "8/4/2" = Except.ok 1 ∧
    (∀ (a b : ℚ) (s : List ℚ),
      apply_operator (b :: a :: s) Operator.Subtraction = Except.ok ((a - b) :: s)) := by
  refine ⟨?_, ?_, ?_⟩
  · have hpost : infix_to_postfix "10-3-2" = Except.ok ["10", "3", "-", "2", "-"] := rfl
    have s10 : stod "10" = Except.ok 10 := by simpa using stod_int "10" false ['1', '0'] 10 rfl rfl rfl
    have s3 : stod "3" = Except.ok 3 := by simpa using stod_int "3" false ['3'] 3 rfl rfl rfl
    have s2 : stod "2" = Except.ok 2 := by simpa using stod_int "2" false ['2'] 2 rfl rfl rfl
    have n10 : is_number "10" = true := rfl
    have n3 : is_number "3" = true := rfl
    have n2 : is_number "2" = true := rfl
    have nm : is_number "-" = false := rfl
    simp [evaluate, hpost, eval_postfix, s10, s3, s2, n10, n3, n2, nm, operator_to_enum, apply_operator]
    norm_num
  · have hpost : infix_to_postfix "8/4/2" = Except.ok ["8", "4", "/", "2", "/"] := rfl
    have s8 : stod "8" = Except.ok 8 := by simpa using stod_int "8" false ['8'] 8 rfl rfl rfl
    have s4 : stod "4" = Except.ok 4 := by simpa using stod_int "4" false ['4'] 4 rfl rfl rfl
    have s2 : stod "2" = Except.ok 2 := by simpa using stod_int "2" false ['2'] 2 rfl rfl rfl
    have n8 : is_number "8" = true := rfl
    have n4 : is_number "4" = true := rfl
    have n2 : is_number "2" = true := rfl
    have nd : is_number "/" = false := rfl
    simp [evaluate, hpost, eval_postfix, s8, s4, s2, n8, n4, n2, nd, operator_to_enum, apply_operator]
    norm_num
  · intro a b s
    simp [apply_operator]

/-- C3: on a precedence tie the stack operator is popped only when the
incoming operator is left-associative; the caret is right-associative,
so has_lower_precedence of a caret against a caret is false and 2^3^2
groups to the right, giving 512. -/
theorem claim_C3 : has_lower_precedence "^" "^" = Except.ok false ∧
    evaluate "2^3^2" = Except.ok 512 := by
  refine ⟨rfl, ?_⟩
  have hpost : infix_to_postfix "2^3^2" = Except.ok ["2", "3", "2", "^", "^"] := rfl
  have s2 : stod "2" = Except.ok 2 := by simpa using stod_int "2" false ['2'] 2 rfl rfl rfl
  have s3 : stod "3" = Except.ok 3 := by simpa using stod_int "3" false ['3'] 3 rfl rfl rfl
  have n2 : is_number "2" = true := rfl
  have n3 : is_number "3" = true := rfl
  have ne : is_number "^" = false := rfl
  simp [evaluate, hpost, eval_postfix, s2, s3, n2, n3, ne, operator_to_enum, apply_operator, pow_model]
  norm_num

/-- C4: whenever apply_operator applies a division whose right operand
(the stack top) is exactly zero, it fails with DivisionByZero, and in
particular evaluate of 1/0 fails with DivisionByZero. -/
theorem claim_C4 : (∀ (a : ℚ) (s : List ℚ),
      apply_operator (0 :: a :: s) Operator.Division = Except.error EvalError.DivisionByZero) ∧
    evaluate "1/0" = Except.error EvalError.DivisionByZero := by
  refine ⟨?_, ?_⟩
  · intro a s
    simp [apply_operator]
  · have hpost : infix_to_postfix "1/0" = Except.ok ["1", "0", "/"] := rfl
    have s1 : stod "1" = Except.ok 1 := by simpa using stod_int "1" false ['1'] 1 rfl rfl rfl
    have s0 : stod "0" = Except.ok 0 := by simpa using stod_int "0" false ['0'] 0 rfl rfl rfl
    have n1 : is_number "1" = true := rfl
    have n0 : is_number "0" = true := rfl
    have nd : is_number "/" = false := rfl
    simp [evaluate, hpost, eval_postfix, s1, s0, n1, n0, nd, operator_to_enum, apply_operator]

/-- C5 (behaviour at the claimed input): the scan of (1+2 never flags
the unmatched left parenthesis; the end-of-scan drain pushes it to the
output as a token, and the evaluator rejects that token with
InsufficientOperands, not with MismatchedParentheses. -/
theorem claim_C5_code : evaluate "(1+2" = Except.error EvalError.InsufficientOperands ∧
    infix_to_postfix "(1+2" = Except.ok ["1", "2", "+", "("] := by
  refine ⟨?_, rfl⟩
  have hpost : infix_to_postfix "(1+2" = Except.ok ["1", "2", "+", "("] := rfl
  have s1 : stod "1" = Except.ok 1 := by simpa using stod_int "1" false ['1'] 1 rfl rfl rfl
  have s2 : stod "2" = Except.ok 2 := by simpa using stod_int "2" false ['2'] 2 rfl rfl rfl
  have n1 : is_number "1" = true := rfl
  have n2 : is_number "2" = true := rfl
  have np : is_number "+" = false := rfl
  have nl : is_number "(" = false := rfl
  simp [evaluate, hpost, eval_postfix, s1, s2, n1, n2, np, nl, operator_to_enum, apply_operator]

/-- C6 (behaviour at the claimed input): the unary lookback sees the
closing parenthesis before the star, which is not a digit, so the star
is folded into the following literal; the token *4 then fails number
parsing and evaluate of (2+3)*4 returns InvalidNumber instead of 20. -/
theorem claim_C6_code : evaluate "(2+3)*4" = Except.error EvalError.InvalidNumber ∧
    infix_to_postfix "(2+3)*4" = Except.ok ["2", "3", "+", "*4"] := by
  refine ⟨?_, rfl⟩
  have hpost : infix_to_postfix "(2+3)*4" = Except.ok ["2", "3", "+", "*4"] := rfl
  have s2 : stod "2" = Except.ok 2 := by simpa using stod_int "2" false ['2'] 2 rfl rfl rfl
  have s3 : stod "3" = Except.ok 3 := by simpa using stod_int "3" false ['3'] 3 rfl rfl rfl
  have sx : stod "*4" = Except.error EvalError.InvalidNumber := rfl
  have n2 : is_number "2" = true := rfl
  have n3 : is_number "3" = true := rfl
  have np : is_number "+" = false := rfl
  have nx : is_number "*4" = true := rfl
  simp [evaluate, hpost, eval_postfix, s2, s3, sx, n2, n3, np, nx, operator_to_enum, apply_operator]

/-- C7: a sign not immediately preceded by a digit is prepended to the
following number literal instead of being treated as a binary operator:
-3+5 tokenizes as the literal -3 then 5 then + and evaluates to 2, and
3*-2 tokenizes as 3 then the literal -2 then * and evaluates to -6. -/
theorem claim_C7 : evaluate "-3+5" = Except.ok 2 ∧
    evaluate "3*-2" = Except.ok (-6) ∧
    infix_to_postfix "-3+5" = Except.ok ["-3", "5", "+"] ∧
    infix_to_postfix "3*-2" = Except.ok ["3", "-2", "*"] := by
  refine ⟨?_, ?_, rfl, rfl⟩
  · have hpost : infix_to_postfix "-3+5" = Except.ok ["-3", "5", "+"] := rfl
    have sm3 : stod "-3" = Except.ok (-3) := by simpa using stod_int "-3" true ['3'] 3 rfl rfl rfl
    have s5 : stod "5" = Except.ok 5 := by simpa using stod_int "5" false ['5'] 5 rfl rfl rfl
    have nm3 : is_number "-3" = true := rfl
    have n5 : is_number "5" = true := rfl
    have np : is_number "+" = false := rfl
    simp [evaluate, hpost, eval_postfix, sm3, s5, nm3, n5, np, operator_to_enum, apply_operator]
    norm_num
  · have hpost : infix_to_postfix "3*-2" = Except.ok ["3", "-2", "*"] := rfl
    have s3 : stod "3" = Except.ok 3 := by simpa using stod_int "3" false ['3'] 3 rfl rfl rfl
    have sm2 : stod "-2" = Except.ok (-2) := by simpa using stod_int "-2" true ['2'] 2 rfl rfl rfl
    have n3 : is_number "3" = true := rfl
    have nm2 : is_number "-2" = true := rfl
    have nm : is_number "*" = false := rfl
    simp [evaluate, hpost, eval_postfix, s3, sm2, n3, nm2, nm, operator_to_enum, apply_operator]
    norm_num

/-- C8 (behaviour at the claimed inputs): only the literally empty
string is reported as EmptyExpression; a nonempty input of spaces
yields zero tokens and falls through to the final stack-size check,
which reports MalformedExpression. -/
theorem claim_C8_code : evaluate "" = Except.error EvalError.EmptyExpression ∧
    evaluate " " = Except.error EvalError.MalformedExpression := ⟨rfl, rfl⟩

/-- C9 (behaviour at the claimed inputs): inserting spaces around the
plus changes the outcome, because the unary lookback sees the space
rather than the digit and folds the plus into the number literal; the
single token 1+2 is then parsed by stod as 1, while 1+2 without spaces
evaluates to 3. -/
theorem claim_C9_code : evaluate "1+2" = Except.ok 3 ∧
    evaluate "1 + 2" = Except.ok 1 ∧
    infix_to_postfix "1 + 2" = Except.ok ["1+2"] := by
  refine ⟨?_, ?_, rfl⟩
  · have hpost : infix_to_postfix "1+2" = Except.ok ["1", "2", "+"] := rfl
    have s1 : stod "1" = Except.ok 1 := by simpa using stod_int "1" false ['1'] 1 rfl rfl rfl
    have s2 : stod "2" = Except.ok 2 := by simpa using stod_int "2" false ['2'] 2 rfl rfl rfl
    have n1 : is_number "1" = true := rfl
    have n2 : is_number "2" = true := rfl
    have np : is_number "+" = false := rfl
    simp [evaluate, hpost, eval_postfix, s1, s2, n1, n2, np, operator_to_enum, apply_operator]
    norm_num
  · have hpost : infix_to_postfix "1 + 2" = Except.ok ["1+2"] := rfl
    have sx : stod "1+2" = Except.ok 1 := by simpa using stod_int "1+2" false ['1'] 1 rfl rfl rfl
    have nx : is_number "1+2" = true := rfl
    simp [evaluate, hpost, eval_postfix, sx, nx]

/-- C10 (behaviour of the lookback index arithmetic): the guard
i - 1 < 0 compares an unsigned size_t value with zero and is false even
at i = 0, where the lookback index wraps to 2^64 - 1, an index not
below the length of the input -3+5 whose first character is an
operator symbol: the read is out of bounds. -/
theorem claim_C10_code : lookback_guard 0 = false ∧
    lookback_index 0 = 2 ^ 64 - 1 ∧
    ¬ lookback_index 0 < ("-3+5").length := by
  refine ⟨rfl, rfl, ?_⟩
  decide
